import Mathlib

/-!
Shallow embedding of the Lightspeed-ShopSync reconciliation engine
(src/scripts/sync.py) and proofs about its behavior.

Modelling conventions:
* Python dicts for remote entities become structures; a field that the code
  reads with `d["k"]` (raising KeyError when absent) and that a claim needs to
  be absent is `Option`-typed, with `none` standing for an absent key.
* Network and database calls are oracles passed in as function parameters: a
  page-request oracle gives each (page, attempt) outcome, and a `dbErr` oracle
  decides whether a given data-table operation raises.  The audit table
  (`sync_logs`) is modelled as an always-succeeding state update.
* Unbounded `while` pagination is given fuel; exhausted fuel is an error value
  that no claim relies on (claims supply enough fuel).
* `time.sleep` is recorded as the list of slept delays, `print` warnings as
  returned report data.
-/

namespace ShopSync

/-- Image payload: the three fields the code keeps, plus a flag standing for
any additional upstream keys that `normalize_image` discards. -/
structure Image where
  title : Option String := none
  thumb : Option String := none
  src : Option String := none
  extra : Bool := false
deriving DecidableEq, Repr

/-- Model of normalize_image (sync.py lines 27-35): a dict keeps only title/thumb/src,
anything that is not a dict (modelled by `none`) becomes `None`. -/
def normalize_image : Option Image → Option Image
  | some i => some { title := i.title, thumb := i.thumb, src := i.src, extra := false }
  | none => none

/-- A fetched product record (fields of PRODUCT_FIELDS).  `id` is total: the
restricted field projection always carries it and no claim concerns a product
with a missing id. -/
structure Product where
  id : Nat
  visibility : Option String := none
  url : Option String := none
  title : Option String := none
  fulltitle : Option String := none
  description : Option String := none
  content : Option String := none
  image : Option Image := none
  createdAt : Option String := none
  updatedAt : Option String := none
deriving DecidableEq, Repr

/-- A fetched variant record (fields of VARIANT_FIELDS).  `id` and `sku` are
`Option` because the code indexes them with `v["id"]` / `v["sku"]` and C9
concerns their absence (KeyError).  `productRel` is the value of the chain
`v.get("product", {}).get("resource", {}).get("id")`: `none` covers a missing
or non-dict relation or an absent/null nested id, `some 0` a present falsy id.
Price is carried opaquely as an integer number of cents. -/
structure Variant where
  id : Option Nat := none
  isDefault : Option Bool := none
  sku : Option String := none
  priceExcl : Option Int := none
  title : Option String := none
  image : Option Image := none
  productRel : Option Nat := none
deriving DecidableEq, Repr

/-- A product after `attach_variants` added its `variants` list. -/
structure ProductV where
  base : Product
  variants : List Variant
deriving DecidableEq, Repr

/-- Python truthiness of the extracted product-relation id (`if pid:`). -/
def truthyId : Option Nat → Bool
  | some p => p != 0
  | none => false

/-- The variants that `by_product` holds under key `pid`: those whose relation
id is present, truthy, and equal to `pid` (sync.py lines 115-119), in input
order. -/
def attachedTo (variants : List Variant) (pid : Nat) : List Variant :=
  variants.filter (fun v => decide (v.productRel = some pid ∧ pid ≠ 0))

/-- Dropping the relation field, as `v.pop("product", None)` does. -/
def stripRel (v : Variant) : Variant := { v with productRel := none }

/-- First-occurrence-order deduplication, mirroring dict key insertion order
of `by_product`. -/
def firstDedupGo : List Nat → List Nat → List Nat
  | [], _ => []
  | a :: l, seen => if a ∈ seen then firstDedupGo l seen else a :: firstDedupGo l (a :: seen)

def firstDedup (l : List Nat) : List Nat := firstDedupGo l []

/-- The truthy relation ids of a variant list, in order (the insertion order
of `by_product` keys before dedup). -/
def truthyPids (variants : List Variant) : List Nat :=
  variants.filterMap (fun v =>
    match v.productRel with
    | some p => if p = 0 then none else some p
    | none => none)

/-- Whether a variant lands in an orphan group of `attach_variants`: truthy
relation id that is not among the products ids. -/
def isOrphanVariant (pids : List Nat) (v : Variant) : Bool :=
  match v.productRel with
  | some p => decide (p ≠ 0) && decide (p ∉ pids)
  | none => false

/-- Whether the join attaches a variant to some product of the snapshot:
truthy relation id that is among the product ids. -/
def isAttachedB (pids : List Nat) (v : Variant) : Bool :=
  match v.productRel with
  | some p => decide (p ≠ 0) && decide (p ∈ pids)
  | none => false

/-- Result of `attach_variants`:
* `products`  - the input products, each with its `variants` list populated;
* `orphans`   - the warning report, one entry per orphaned product id with the
  remote variant ids of its group (the printed count is the length);
* `variantsAfter` - the input variant list after the in-place
  `v.pop("product", None)` mutation of every truthy-relation variant. -/
structure AttachResult where
  products : List ProductV
  orphans : List (Nat × List Nat)
  variantsAfter : List Variant
deriving DecidableEq, Repr

/-- Model of attach_variants (sync.py lines 112-132).  The orphan report reads
`v["id"]` of every variant in an orphan group, so a missing id there raises
KeyError; otherwise the function cannot fail. -/
def attach_variants (products : List Product) (variants : List Variant)
    (shopName : Option String) : Except String AttachResult :=
  if ∀ v ∈ variants, isOrphanVariant (products.map (·.id)) v = true → v.id.isSome then
    .ok { products := products.map (fun p => ⟨p, (attachedTo variants p.id).map stripRel⟩),
          orphans := ((firstDedup (truthyPids variants)).filter
              (fun q => decide (q ∉ products.map (·.id)))).map
            (fun q => (q, (attachedTo variants q).filterMap (·.id))),
          variantsAfter := variants.map (fun v => if truthyId v.productRel then stripRel v else v) }
  else .error "KeyError: id"

/-! ## Paginated fetcher -/

deriving instance DecidableEq for Except

def LIMIT : Nat := 250
def MAX_RETRIES : Nat := 3

/-- Outcome of the per-page retry loop: the final result, the number of
attempts made, and the backoff delays actually slept (in seconds). -/
structure RetryOutcome (α : Type) where
  result : Except String (List α)
  attempts : Nat
  delays : List Nat
deriving DecidableEq, Repr

/-- The `for attempt in range(MAX_RETRIES)` loop (sync.py lines 43-58): on
success break; on failure at the last attempt re-raise, otherwise sleep
`2 ** attempt` seconds and try again.  `left` is the number of attempts that
`range` still yields, starting at `MAX_RETRIES`. -/
def retryGo {α : Type} (req : Nat → Except String (List α)) : Nat → Nat → RetryOutcome α
  | _, 0 => ⟨.error "no attempts", 0, []⟩
  | attempt, left + 1 =>
    match req attempt with
    | .ok batch => ⟨.ok batch, 1, []⟩
    | .error e =>
      if left = 0 then ⟨.error e, 1, []⟩
      else
        let r := retryGo req (attempt + 1) left
        ⟨r.result, r.attempts + 1, 2 ^ attempt :: r.delays⟩

def retryRequest {α : Type} (req : Nat → Except String (List α)) : RetryOutcome α :=
  retryGo req 0 MAX_RETRIES

/-- The `while True` pagination loop shared by `fetch_products` and
`fetch_variants` (sync.py lines 42-72 and 79-109).  `req page attempt` is the
outcome of the HTTP request for that page and attempt.  Returns the collected
entities and the number of page requests issued; a page whose retry budget is
exhausted aborts the whole fetch with that error (no partial collection). -/
def fetchGo {α : Type} (limit : Nat) (norm : α → α)
    (req : Nat → Nat → Except String (List α)) :
    Nat → Nat → List α → Nat → Except String (List α × Nat)
  | 0, _, _, _ => .error "fuel exhausted"
  | fuel + 1, page, acc, reqs =>
    match (retryRequest (req page)).result with
    | .error e => .error e
    | .ok batch =>
      if batch.isEmpty then .ok (acc, reqs + 1)
      else
        let nb := batch.map norm
        if nb.length < limit then .ok (acc ++ nb, reqs + 1)
        else fetchGo limit norm req fuel (page + 1) (acc ++ nb) (reqs + 1)

def fetchPaged {α : Type} (fuel limit : Nat) (norm : α → α)
    (req : Nat → Nat → Except String (List α)) : Except String (List α × Nat) :=
  fetchGo limit norm req fuel 1 [] 0

/-- In-fetch image normalization of products (sync.py lines 64-65). -/
def normP (p : Product) : Product := { p with image := normalize_image p.image }

/-- In-fetch image normalization of variants (sync.py lines 101-102). -/
def normV (v : Variant) : Variant := { v with image := normalize_image v.image }

/-- Model of fetch_products with the language/credentials folded into the page
oracle. -/
def fetch_products (fuel : Nat) (req : Nat → Nat → Except String (List Product)) :
    Except String (List Product × Nat) :=
  fetchPaged fuel LIMIT normP req

/-- Model of fetch_variants with the language/credentials folded into the page
oracle. -/
def fetch_variants (fuel : Nat) (req : Nat → Nat → Except String (List Variant)) :
    Except String (List Variant × Nat) :=
  fetchPaged fuel LIMIT normV req

/-! ## Destination rows and projection (sync.py lines 208-250) -/

structure ProductRow where
  shop_id : Nat
  lightspeed_product_id : Nat
  visibility : Option String
  image : Option Image
  ls_created_at : Option String
  ls_updated_at : Option String
deriving DecidableEq, Repr

structure ContentRow where
  shop_id : Nat
  lightspeed_product_id : Nat
  language_code : String
  url : Option String
  title : Option String
  fulltitle : Option String
  description : Option String
  content : Option String
deriving DecidableEq, Repr

structure VariantRow where
  shop_id : Nat
  lightspeed_product_id : Nat
  lightspeed_variant_id : Nat
  sku : String
  is_default : Option Bool
  price_excl : Option Int
  image : Option Image
deriving DecidableEq, Repr

structure VariantContentRow where
  shop_id : Nat
  lightspeed_variant_id : Nat
  language_code : String
  title : Option String
deriving DecidableEq, Repr

def productRowOf (shopId : Nat) (pv : ProductV) : ProductRow :=
  ⟨shopId, pv.base.id, pv.base.visibility, pv.base.image, pv.base.createdAt, pv.base.updatedAt⟩

def contentRowOf (shopId : Nat) (lang : String) (p : Product) : ContentRow :=
  ⟨shopId, p.id, lang, p.url, p.title, p.fulltitle, p.description, p.content⟩

/-- The variant core row (sync.py lines 235-243); `none` when `v["id"]` or
`v["sku"]` would raise KeyError. -/
def variantRowOf (shopId pid : Nat) (v : Variant) : Option VariantRow :=
  match v.id, v.sku with
  | some vid, some sku => some ⟨shopId, pid, vid, sku, v.isDefault, v.priceExcl, v.image⟩
  | _, _ => none

def variantContentRowOf (shopId : Nat) (lang : String) (v : Variant) : Option VariantContentRow :=
  match v.id with
  | some vid => some ⟨shopId, vid, lang, v.title⟩
  | none => none

/-- A variant whose projection raises KeyError: `v["id"]` is read before
`v["sku"]` in the row literal. -/
def badVariant (v : Variant) : Bool := v.id.isNone || v.sku.isNone

/-- The row-building loop (sync.py lines 213-250): builds the four row lists
in product-major order; the first attached variant lacking id or sku raises
KeyError before any upsert runs. -/
def projectRows (shopId : Nat) (baseLang : String) (ps : List ProductV) :
    Except String (List ProductRow × List ContentRow × List VariantRow × List VariantContentRow) :=
  match (ps.flatMap (·.variants)).find? badVariant with
  | some v => .error (if v.id.isNone then "KeyError: id" else "KeyError: sku")
  | none =>
    .ok (ps.map (productRowOf shopId),
         ps.map (fun pv => contentRowOf shopId baseLang pv.base),
         ps.flatMap (fun pv => pv.variants.filterMap (variantRowOf shopId pv.base.id)),
         ps.flatMap (fun pv => pv.variants.filterMap (variantContentRowOf shopId baseLang)))

/-- The orphan metric (sync.py line 206): fetched variants minus the variants
attached across all products. -/
def variantsFiltered (pvs : List ProductV) (variants : List Variant) : Nat :=
  variants.length - (pvs.map (fun pv => pv.variants.length)).sum

/-! ## Database state, upserts, cleanup -/

structure DB where
  products : List ProductRow
  product_content : List ContentRow
  variants : List VariantRow
  variant_content : List VariantContentRow
deriving DecidableEq, Repr

def emptyDB : DB := ⟨[], [], [], []⟩

/-- Upsert on conflict key (shop_id, lightspeed_product_id): existing rows
with a conflicting key are replaced by the new rows. -/
def upsertProducts (rows : List ProductRow) (t : List ProductRow) : List ProductRow :=
  t.filter (fun r => !(rows.any (fun n =>
    n.shop_id == r.shop_id && n.lightspeed_product_id == r.lightspeed_product_id))) ++ rows

/-- Upsert on conflict key (shop_id, lightspeed_product_id, language_code). -/
def upsertProductContent (rows : List ContentRow) (t : List ContentRow) : List ContentRow :=
  t.filter (fun r => !(rows.any (fun n =>
    n.shop_id == r.shop_id && n.lightspeed_product_id == r.lightspeed_product_id &&
    n.language_code == r.language_code))) ++ rows

/-- Upsert on conflict key (shop_id, lightspeed_variant_id). -/
def upsertVariants (rows : List VariantRow) (t : List VariantRow) : List VariantRow :=
  t.filter (fun r => !(rows.any (fun n =>
    n.shop_id == r.shop_id && n.lightspeed_variant_id == r.lightspeed_variant_id))) ++ rows

/-- Upsert on conflict key (shop_id, lightspeed_variant_id, language_code). -/
def upsertVariantContent (rows : List VariantContentRow) (t : List VariantContentRow) :
    List VariantContentRow :=
  t.filter (fun r => !(rows.any (fun n =>
    n.shop_id == r.shop_id && n.lightspeed_variant_id == r.lightspeed_variant_id &&
    n.language_code == r.language_code))) ++ rows

/-- The remote ids currently stored in a table for one shop (the
`select(...).eq("shop_id", ...)` read of sync.py lines 267-275 / 289-297). -/
def storedIds {Row : Type} (shopOf idOf : Row → Nat) (shopId : Nat) (rows : List Row) :
    Finset Nat :=
  ((rows.filter (fun r => decide (shopOf r = shopId))).map idOf).toFinset

/-- Result of one cleanup block: the table afterwards, the deleted-count
metric, and the id set of the issued delete (`none` when no delete ran). -/
structure CleanupOut (Row : Type) where
  table : List Row
  deletedCount : Nat
  issued : Option (Finset Nat)
deriving DecidableEq

/-- One cleanup block of sync_shop (lines 264-284 for products, 286-306 for
variants): read the stored ids of the shop, diff against the fetched ids, and
when the difference is nonempty delete exactly the rows of the shop whose id is
the difference. -/
def cleanupTable {Row : Type} (shopOf idOf : Row → Nat) (shopId : Nat)
    (fetched : Finset Nat) (rows : List Row) : CleanupOut Row :=
  let orphaned := storedIds shopOf idOf shopId rows \ fetched
  if orphaned = ∅ then ⟨rows, 0, none⟩
  else ⟨rows.filter (fun r => !(decide (shopOf r = shopId ∧ idOf r ∈ orphaned))),
        orphaned.card, some orphaned⟩

/-! ## Secondary-language content pass (sync.py lines 315-365) -/

/-- Localized product content rows: only products whose remote id is in the
valid (base-language) id set are kept (lines 329-342). -/
def secondaryRows (shopId : Nat) (lang : String) (validP : Finset Nat)
    (lps : List Product) : List ContentRow :=
  (lps.filter (fun p => decide (p.id ∈ validP))).map (contentRowOf shopId lang)

/-- Localized variant content rows (lines 344-353): the comprehension reads
`v["id"]` for every fetched localized variant, so a missing id raises; rows
are kept only for ids in the valid variant id set. -/
def secondaryVariantRows (shopId : Nat) (lang : String) (validV : Finset Nat)
    (lvs : List Variant) : Except String (List VariantContentRow) :=
  match lvs.find? (fun v => v.id.isNone) with
  | some _ => .error "KeyError: id"
  | none => .ok ((lvs.filter (fun v => decide (v.id.getD 0 ∈ validV))).map
      (fun v => ⟨shopId, v.id.getD 0, lang, v.title⟩))

/-! ## Shop pipeline orchestrator (sync_shop, sync.py lines 151-382) -/

/-- The metrics dict of sync.py lines 165-173. -/
structure Metrics where
  products_fetched : Nat := 0
  variants_fetched : Nat := 0
  products_synced : Nat := 0
  variants_synced : Nat := 0
  products_deleted : Nat := 0
  variants_deleted : Nat := 0
  variants_filtered : Nat := 0
deriving DecidableEq, Repr

/-- The sync_logs row of the shop after the run: status, error message, whether
completed_at was set, and the metrics written with the terminal update. -/
structure SyncLog where
  shop_id : Nat
  status : String
  error_message : Option String := none
  completed : Bool := false
  metrics : Metrics := {}
deriving DecidableEq, Repr

structure ShopLang where
  code : String
  is_active : Bool
  is_default : Bool
deriving DecidableEq, Repr

structure Shop where
  id : Nat
  name : String
  tld : String
  shop_languages : List ShopLang
deriving DecidableEq, Repr

/-- A data-table operation actually executed against the store. -/
inductive DbOp where
  | upsert (table : String) (rowCount : Nat)
  | delete (table : String) (shopId : Nat) (ids : Finset Nat)
deriving DecidableEq

/-- Mutable state threaded through one shop run: the metrics dict, the data
tables, the executed data-table operations in order, and the valid id sets
once lines 311-313 have computed them. -/
structure St where
  metrics : Metrics
  db : DB
  ops : List DbOp
  validSets : Option (Finset Nat × Finset Nat)
deriving DecidableEq

def initSt (db0 : DB) : St := ⟨{}, db0, [], none⟩

/-- External collaborators of one shop run: environment lookup, the page
oracles per language for the two collections, the injected outcome of each
fallible data-table operation (keyed by operation name), and pagination
fuel. -/
structure SyncEnv where
  getenv : String → Option String
  productPages : String → Nat → Nat → Except String (List Product)
  variantPages : String → Nat → Nat → Except String (List Variant)
  dbErr : String → Option String
  fuel : Nat

/-- Model of str.upper() applied to the shop tld (ASCII): uppercase each character.  Defined
structurally over the character list so that concrete runs evaluate. -/
def pyUpper (s : String) : String := ⟨s.data.map Char.toUpper⟩

/-- Python truthiness of `os.getenv` results (`if not api_key ...`). -/
def truthyStr : Option String → Bool
  | some s => !s.isEmpty
  | none => false

def credKey (tld : String) : String := "LIGHTSPEED_API_KEY_" ++ tld

def credSecret (tld : String) : String := "LIGHTSPEED_API_SECRET_" ++ tld

/-- Model of bulk_upsert (sync.py lines 138-145): no-op on an empty row list,
otherwise the operation either raises (per the `dbErr` oracle) or applies its
effect and is recorded. -/
def bulk_upsert (dbErr : String → Option String) (table : String) (rowCount : Nat)
    (apply : DB → DB) (st : St) : St × Except String Unit :=
  if rowCount = 0 then (st, .ok ())
  else
    match dbErr ("upsert:" ++ table) with
    | some e => (st, .error e)
    | none => ({ st with db := apply st.db, ops := st.ops ++ [.upsert table rowCount] }, .ok ())

/-- The products cleanup block (sync.py lines 264-284) as a state step: when a
delete is issued it can raise; on success the table, metric and op log are
updated. -/
def cleanupProductsStep (dbErr : String → Option String) (shopId : Nat)
    (apiIds : Finset Nat) (st : St) : St × Except String Unit :=
  let co := cleanupTable (fun r => r.shop_id) (fun r => r.lightspeed_product_id)
    shopId apiIds st.db.products
  match co.issued with
  | none => (st, .ok ())
  | some orphaned =>
    match dbErr "delete:products" with
    | some e => (st, .error e)
    | none =>
      let stNew : St :=
        { st with
          db := { st.db with products := co.table }
          ops := st.ops ++ [.delete "products" shopId orphaned]
          metrics := { st.metrics with products_deleted := co.deletedCount } }
      (stNew, .ok ())

/-- The variants cleanup block (sync.py lines 286-306). -/
def cleanupVariantsStep (dbErr : String → Option String) (shopId : Nat)
    (apiIds : Finset Nat) (st : St) : St × Except String Unit :=
  let co := cleanupTable (fun r => r.shop_id) (fun r => r.lightspeed_variant_id)
    shopId apiIds st.db.variants
  match co.issued with
  | none => (st, .ok ())
  | some orphaned =>
    match dbErr "delete:variants" with
    | some e => (st, .error e)
    | none =>
      let stNew : St :=
        { st with
          db := { st.db with variants := co.table }
          ops := st.ops ++ [.delete "variants" shopId orphaned]
          metrics := { st.metrics with variants_deleted := co.deletedCount } }
      (stNew, .ok ())

/-- Python statement sequencing of two fallible state steps: the second runs
only when the first did not raise. -/
def andThen (step k : St → St × Except String Unit) (st : St) : St × Except String Unit :=
  match step st with
  | (st1, .error e) => (st1, .error e)
  | (st1, .ok _) => k st1

/-- The secondary-language loop (sync.py lines 315-365): for each active
language other than the base one, fetch both collections, filter against the
valid id sets, and upsert the two content tables.  Metrics are not modified in
this loop; the filtered counts are only printed. -/
def runLangs (env : SyncEnv) (shop : Shop) (baseLang : String)
    (validP validV : Finset Nat) : List String → St → St × Except String Unit
  | [], st => (st, .ok ())
  | lang :: rest, st =>
    if lang = baseLang then runLangs env shop baseLang validP validV rest st
    else
      match fetch_products env.fuel (env.productPages lang) with
      | .error e => (st, .error e)
      | .ok (lps, _) =>
        match fetch_variants env.fuel (env.variantPages lang) with
        | .error e => (st, .error e)
        | .ok (lvs, _) =>
          let prows := secondaryRows shop.id lang validP lps
          match secondaryVariantRows shop.id lang validV lvs with
          | .error e => (st, .error e)
          | .ok vrows =>
            andThen (bulk_upsert env.dbErr "product_content" prows.length
                (fun db => { db with product_content := upsertProductContent prows db.product_content }))
              (andThen (bulk_upsert env.dbErr "variant_content" vrows.length
                  (fun db => { db with variant_content := upsertVariantContent vrows db.variant_content }))
                (runLangs env shop baseLang validP validV rest)) st

/-- Upserts, cleanup, valid-set computation and the secondary passes
(sync.py lines 256-365), entered once the four row lists are built.  The
valid id sets handed to the secondary passes are the id set of the attached
base-language products and the id set of the built variant rows (lines
265, 287, 311-313), computed from the fetch result and never re-read from the
store. -/
def persistPhase (env : SyncEnv) (shop : Shop) (baseLang : String)
    (activeLangs : List String) (pvs : List ProductV)
    (productRows : List ProductRow) (contentRows : List ContentRow)
    (variantRows : List VariantRow) (variantContentRows : List VariantContentRow)
    (st : St) : St × Except String Unit :=
  let apiProductIds := (pvs.map (fun pv => pv.base.id)).toFinset
  let apiVariantIds := (variantRows.map (fun r => r.lightspeed_variant_id)).toFinset
  andThen (bulk_upsert env.dbErr "products" productRows.length
      (fun db => { db with products := upsertProducts productRows db.products }))
    (andThen (bulk_upsert env.dbErr "product_content" contentRows.length
        (fun db => { db with product_content := upsertProductContent contentRows db.product_content }))
      (andThen (bulk_upsert env.dbErr "variants" variantRows.length
          (fun db => { db with variants := upsertVariants variantRows db.variants }))
        (andThen (bulk_upsert env.dbErr "variant_content" variantContentRows.length
            (fun db => { db with variant_content := upsertVariantContent variantContentRows db.variant_content }))
          (andThen (cleanupProductsStep env.dbErr shop.id apiProductIds)
            (andThen (cleanupVariantsStep env.dbErr shop.id apiVariantIds)
              (fun st6 => runLangs env shop baseLang apiProductIds apiVariantIds activeLangs
                { st6 with validSets := some (apiProductIds, apiVariantIds) })))))) st

/-- The body of the `try` block of sync_shop (sync.py lines 175-372): resolve
credentials, find the base language, fetch, attach, project, persist.  Returns
the state reached and either success or the raised exception message.  The
fetched-count metrics are recorded only after both base fetch futures have
been read (lines 198-199), the synced counts before the first upsert (lines
253-254). -/
def syncShopBody (env : SyncEnv) (shop : Shop) (st0 : St) : St × Except String Unit :=
  let tld := pyUpper shop.tld
  if !(truthyStr (env.getenv (credKey tld)) && truthyStr (env.getenv (credSecret tld))) then
    (st0, .error ("Missing API credentials for shop TLD=" ++ tld))
  else
    match shop.shop_languages.find? (·.is_default) with
    | none => (st0, .error "")
    | some bl =>
      let baseLang := bl.code
      let activeLangs := (shop.shop_languages.filter (·.is_active)).map (·.code)
      match fetch_products env.fuel (env.productPages baseLang) with
      | .error e => (st0, .error e)
      | .ok (products0, _) =>
        match fetch_variants env.fuel (env.variantPages baseLang) with
        | .error e => (st0, .error e)
        | .ok (variants0, _) =>
          let st1 := { st0 with metrics := { st0.metrics with
            products_fetched := products0.length, variants_fetched := variants0.length } }
          match attach_variants products0 variants0 (some shop.name) with
          | .error e => (st1, .error e)
          | .ok att =>
            let st2 := { st1 with metrics := { st1.metrics with
              variants_filtered := variantsFiltered att.products variants0 } }
            match projectRows shop.id baseLang att.products with
            | .error e => (st2, .error e)
            | .ok (productRows, contentRows, variantRows, variantContentRows) =>
              let st3 := { st2 with metrics := { st2.metrics with
                products_synced := productRows.length, variants_synced := variantRows.length } }
              persistPhase env shop baseLang activeLangs att.products
                productRows contentRows variantRows variantContentRows st3

/-- Outcome of one shop run: the terminal sync_logs row, the value returned or
re-raised by sync_shop, and the final state. -/
structure ShopRun where
  log : SyncLog
  result : Except String Unit
  st : St

/-- Model of sync_shop (sync.py lines 151-382): insert the running audit row, run the
body, and close the audit row with `success`, or with `error`, the captured
exception message and the metrics gathered so far before re-raising. -/
def sync_shop (env : SyncEnv) (shop : Shop) (db0 : DB) : ShopRun :=
  match syncShopBody env shop (initSt db0) with
  | (st, .ok _) =>
    ⟨{ shop_id := shop.id, status := "success", completed := true, metrics := st.metrics },
     .ok (), st⟩
  | (st, .error e) =>
    ⟨{ shop_id := shop.id, status := "error", error_message := some e, completed := true,
       metrics := st.metrics }, .error e, st⟩

/-! ## Fleet scheduler (sync.py lines 388-416) -/

/-- The `__main__` fleet pass over `runOne` (the per-shop pipeline): every
shop is submitted, each result is collected, and a failing shop has its exception caught
and logged without affecting the other shops.  `ThreadPoolExecutor` with
`max_workers=len(shops)` raises on an empty roster. -/
def runFleet (shops : List Shop) (runOne : Shop → Except String Unit) :
    Except String (List (Shop × Except String Unit) × List String) :=
  if shops.isEmpty then .error "max_workers must be greater than 0"
  else .ok (shops.map (fun s => (s, runOne s)),
            shops.filterMap (fun s =>
              match runOne s with
              | .error e => some ("Error syncing shop " ++ s.name ++ ": " ++ e)
              | .ok _ => none))

/-! ## Concrete fixtures used by witnesses and counterexamples -/

/-- Concrete rows for the C1 witness: shop 1 stores product ids 1,2,3,4 and an
unrelated shop 2 stores id 1. -/
def c1row (s pid : Nat) : ProductRow := ⟨s, pid, none, none, none, none⟩

def c1rows : List ProductRow := [c1row 1 1, c1row 1 2, c1row 1 3, c1row 1 4, c1row 2 1]

def c1fetched : Finset Nat := {2, 3, 5}

/-- An always-failing page request, used to exercise retry exhaustion. -/
def failingPages : Nat → Nat → Except String (List Nat) := fun _ _ => .error "boom"

/-- C5 counterexample: a source with page size 1 and page sizes [1, 1, 1, 0]
makes the fetcher issue 4 page requests, not 3 — the empty fourth page must be
requested before the loop can stop. -/
def c5pages : Nat → Nat → Except String (List Nat) :=
  fun p _ => .ok (if p ≤ 3 then [7] else [])

/-- Concrete pages for the C5 witness: page size 2, page sizes [2, 2, 2, 1]. -/
def c5wpages : Nat → Nat → Except String (List Nat) :=
  fun p _ => .ok (if p = 1 then [1, 2] else if p = 2 then [3, 4] else if p = 3 then [5, 6] else [9])

def c3p10 : Product := { id := 10 }

def c3lps : List Product := [c3p10, { id := 11 }, { id := 12 }]

def c3valid : Finset Nat := {10, 11}

/-- A variant with a present-but-zero (falsy) product relation id. -/
def c2cexVariant : Variant := { id := some 1, productRel := some 0 }

def c2prods : List Product := [{ id := 1 }, { id := 2 }]

def c2vars : List Variant :=
  [{ id := some 11, productRel := some 1 },
   { id := some 12, productRel := some 2 },
   { id := some 13, productRel := some 9 }]

def c2att : AttachResult :=
  ⟨[⟨{ id := 1 }, [{ id := some 11 }]⟩, ⟨{ id := 2 }, [{ id := some 12 }]⟩],
   [(9, [13])],
   [{ id := some 11 }, { id := some 12 }, { id := some 13 }]⟩

def c10v0 : Variant := { id := some 22, productRel := some 0 }

def c10vf : Variant := { id := some 21 }

def c10v1 : Variant := { id := some 23, productRel := some 1 }

def c10prods : List Product := [{ id := 1 }]

def c10vars : List Variant := [c10vf, c10v0, c10v1]

def c10att : AttachResult :=
  ⟨[⟨{ id := 1 }, [{ id := some 23 }]⟩], [], [c10vf, c10v0, { id := some 23 }]⟩

def c7shopA : Shop := ⟨1, "A", "nl", []⟩

def c7shopB : Shop := ⟨2, "B", "be", []⟩

def c7shopC : Shop := ⟨3, "C", "de", []⟩

def c7shops : List Shop := [c7shopA, c7shopB, c7shopC]

/-- A per-shop pipeline in which exactly shop B (id 2) fails. -/
def c7run : Shop → Except String Unit :=
  fun s => if s.id = 2 then .error "boom" else .ok ()

def c7res : List (Shop × Except String Unit) :=
  [(c7shopA, .ok ()), (c7shopB, .error "boom"), (c7shopC, .ok ())]

def c7logs : List String := ["Error syncing shop B: boom"]

/-- Environment for the C6 witness: no credentials configured at all. -/
def c6env : SyncEnv :=
  ⟨fun _ => none, fun _ _ _ => .ok [], fun _ _ _ => .ok [], fun _ => none, 2⟩

def c6shop : Shop := ⟨7, "S", "nl", [⟨"nl", true, true⟩]⟩

def c9prod : Product := { id := 1 }

/-- A variant with an id but no SKU key, attached to product 1. -/
def c9var : Variant := { id := some 5, productRel := some 1 }

/-- Environment for the C9 witness: one product page and one variant page,
the only variant lacking its SKU. -/
def c9env : SyncEnv :=
  ⟨fun _ => some "k",
   fun _ p _ => .ok (if p = 1 then [c9prod] else []),
   fun _ p _ => .ok (if p = 1 then [c9var] else []),
   fun _ => none, 3⟩

def c9shop : Shop := ⟨7, "S", "nl", [⟨"nl", true, true⟩]⟩

def c9att : AttachResult :=
  ⟨[⟨{ id := 1 }, [{ id := some 5 }]⟩], [], [{ id := some 5 }]⟩

/-- The state sync_shop has built right before the persist phase: fetched,
filtered and synced metrics recorded, nothing yet written. -/
def baseFetchedSt (db0 : DB) (ps : List Product) (vs : List Variant) (att : AttachResult)
    (productRows : List ProductRow) (variantRows : List VariantRow) : St where
  metrics :=
    { products_fetched := ps.length
      variants_fetched := vs.length
      products_synced := productRows.length
      variants_synced := variantRows.length
      variants_filtered := variantsFiltered att.products vs }
  db := db0
  ops := []
  validSets := none

def c8prod : Product := { id := 1 }

def c8var : Variant := { id := some 5, sku := some "S", productRel := some 1 }

/-- Environment for the C8 witness: a complete successful single-product,
single-variant base-language run. -/
def c8env : SyncEnv :=
  ⟨fun _ => some "k",
   fun _ p _ => .ok (if p = 1 then [c8prod] else []),
   fun _ p _ => .ok (if p = 1 then [c8var] else []),
   fun _ => none, 2⟩

def c8shop : Shop := ⟨7, "S", "nl", [⟨"nl", true, true⟩]⟩

def c8att : AttachResult :=
  ⟨[⟨c8prod, [{ id := some 5, sku := some "S" }]⟩], [], [{ id := some 5, sku := some "S" }]⟩

def c8productRows : List ProductRow := [⟨7, 1, none, none, none, none⟩]

def c8contentRows : List ContentRow := [⟨7, 1, "nl", none, none, none, none, none⟩]

def c8variantRows : List VariantRow := [⟨7, 1, 5, "S", none, none, none⟩]

def c8variantContentRows : List VariantContentRow := [⟨7, 5, "nl", none⟩]

/-! ## Theorems -/

/-- C1: Cleanup of a destination table deletes exactly the rows of the given
shop whose stored remote id is in the set difference stored minus fetched
(stored ids being the ids read back from the table for that shop): a row of
the table survives iff it is not a row of the shop with an orphaned id, every
row whose id is in the fetched set survives, rows of other shops are
untouched, the deleted-count metric is the size of the difference, and when
the difference is empty no delete is issued and the table is unchanged.
Instantiated by sync_shop for the products table with the ids of the
base-language fetch and for the variants table with the built variant-row
ids. -/
theorem C1_cleanup {Row : Type} (shopOf idOf : Row → Nat) (shopId : Nat)
    (fetched : Finset Nat) (rows : List Row) (r : Row) (hr : r ∈ rows) :
    (r ∈ (cleanupTable shopOf idOf shopId fetched rows).table ↔
      ¬(shopOf r = shopId ∧ idOf r ∈ storedIds shopOf idOf shopId rows \ fetched)) ∧
    (idOf r ∈ fetched → r ∈ (cleanupTable shopOf idOf shopId fetched rows).table) ∧
    (shopOf r ≠ shopId → r ∈ (cleanupTable shopOf idOf shopId fetched rows).table) ∧
    (storedIds shopOf idOf shopId rows \ fetched = ∅ →
      cleanupTable shopOf idOf shopId fetched rows = ⟨rows, 0, none⟩) ∧
    (cleanupTable shopOf idOf shopId fetched rows).deletedCount =
      (storedIds shopOf idOf shopId rows \ fetched).card ∧
    (storedIds shopOf idOf shopId rows \ fetched ≠ ∅ →
      (cleanupTable shopOf idOf shopId fetched rows).issued =
        some (storedIds shopOf idOf shopId rows \ fetched)) := by
  by_cases h : storedIds shopOf idOf shopId rows \ fetched = ∅
  · have hnotin : ∀ x : Nat, x ∉ storedIds shopOf idOf shopId rows \ fetched := by
      intro x hx
      rw [h] at hx
      exact absurd hx (Finset.not_mem_empty x)
    refine ⟨?_, ?_, ?_, ?_, ?_, ?_⟩
    · simp [cleanupTable, h, hr, hnotin (idOf r)]
    · intro _
      simp [cleanupTable, h, hr]
    · intro _
      simp [cleanupTable, h, hr]
    · intro _
      simp [cleanupTable, h]
    · simp [cleanupTable, h]
    · intro hne
      exact absurd h hne
  · have htab : (cleanupTable shopOf idOf shopId fetched rows).table =
        rows.filter (fun r =>
          !(decide (shopOf r = shopId ∧ idOf r ∈ storedIds shopOf idOf shopId rows \ fetched))) := by
      simp [cleanupTable, h]
    refine ⟨?_, ?_, ?_, ?_, ?_, ?_⟩
    · rw [htab]
      simp [List.mem_filter, hr]
      tauto
    · intro hf
      rw [htab]
      simp only [List.mem_filter, Bool.not_eq_true', decide_eq_false_iff_not]
      exact ⟨hr, fun hc => absurd (Finset.mem_sdiff.mp hc.2).2 (by simp [hf])⟩
    · intro hs
      rw [htab]
      simp only [List.mem_filter, Bool.not_eq_true', decide_eq_false_iff_not]
      exact ⟨hr, fun hc => hs hc.1⟩
    · intro he
      exact absurd he h
    · simp [cleanupTable, h]
    · intro _
      simp [cleanupTable, h]

/-- C1 witness: with stored ids 1,2,3,4 for shop 1 and fetched ids 2,3,5, the
kept row with id 2 survives cleanup and exactly the two orphaned rows 1 and 4
are deleted (count 2), the foreign shop row with id 1 surviving as well. -/
theorem C1_cleanup_witness :
    c1row 1 2 ∈ (cleanupTable (fun r : ProductRow => r.shop_id)
      (fun r => r.lightspeed_product_id) 1 c1fetched c1rows).table ∧
    c1row 2 1 ∈ (cleanupTable (fun r : ProductRow => r.shop_id)
      (fun r => r.lightspeed_product_id) 1 c1fetched c1rows).table ∧
    (cleanupTable (fun r : ProductRow => r.shop_id)
      (fun r => r.lightspeed_product_id) 1 c1fetched c1rows).deletedCount = 2 := by
  refine ⟨?_, ?_, ?_⟩
  · exact (C1_cleanup (fun r : ProductRow => r.shop_id) (fun r => r.lightspeed_product_id)
      1 c1fetched c1rows (c1row 1 2) (by decide)).2.1 (by decide)
  · exact (C1_cleanup (fun r : ProductRow => r.shop_id) (fun r => r.lightspeed_product_id)
      1 c1fetched c1rows (c1row 2 1) (by decide)).2.2.1 (by decide)
  · exact Eq.trans (C1_cleanup (fun r : ProductRow => r.shop_id)
      (fun r => r.lightspeed_product_id) 1 c1fetched c1rows (c1row 1 2) (by decide)).2.2.2.2.1
      (by decide)

/-- Helper: a successful attempt ends the retry loop after one attempt with
no sleep. -/
theorem retryGo_ok {α : Type} {req : Nat → Except String (List α)} {attempt : Nat}
    {b : List α} (hb : req attempt = .ok b) (left : Nat) :
    retryGo req attempt (left + 1) = ⟨.ok b, 1, []⟩ := by
  simp [retryGo, hb]

/-- Helper: a first attempt that succeeds makes the whole retry succeed. -/
theorem retryRequest_ok {α : Type} {req : Nat → Except String (List α)} {b : List α}
    (hb : req 0 = .ok b) : retryRequest req = ⟨.ok b, 1, []⟩ := by
  have h : retryGo req 0 (2 + 1) = ⟨.ok b, 1, []⟩ := retryGo_ok hb 2
  exact h

/-- C4 counterexample: for a page whose every attempt fails, the retry loop
makes 3 attempts but sleeps backoff delays of only 1s and 2s; the claimed
delay list 1s, 2s, 4s does not occur (the 4s sleep is unreachable, since the
final failed attempt re-raises without sleeping). -/
theorem C4_counterexample :
    (retryRequest (failingPages 1)).attempts = 3 ∧
    (retryRequest (failingPages 1)).delays = [1, 2] ∧
    (retryRequest (failingPages 1)).delays ≠ [1, 2, 4] := by
  refine ⟨by decide, by decide, by decide⟩

/-- C4 (amended): for every page request that fails with a transport error or
timeout on every attempt, the fetcher makes exactly 3 attempts, sleeping
backoff delays of 1s and 2s (delay 2^attempt after failed attempts 0 and 1; no
sleep follows the final attempt); the error of the final failed attempt
propagates, the whole collection fetch aborts with that error, and no partial
collection (zero entities) is returned. -/
theorem C4_retry_exhaustion {α : Type} (reqP : Nat → Nat → Except String (List α))
    (page : Nat) (es : Nat → String)
    (h : ∀ a, a < MAX_RETRIES → reqP page a = .error (es a))
    (limit fuel reqs : Nat) (norm : α → α) (accL : List α) :
    retryRequest (reqP page) = ⟨.error (es 2), 3, [1, 2]⟩ ∧
    fetchGo limit norm reqP (fuel + 1) page accL reqs = .error (es 2) := by
  have h0 := h 0 (by norm_num [MAX_RETRIES])
  have h1 := h 1 (by norm_num [MAX_RETRIES])
  have h2 := h 2 (by norm_num [MAX_RETRIES])
  have hret : retryGo (reqP page) 0 (2 + 1) = ⟨.error (es 2), 3, [1, 2]⟩ := by
    simp [retryGo, h0, h1, h2]
  have hreq : retryRequest (reqP page) = ⟨.error (es 2), 3, [1, 2]⟩ := hret
  refine ⟨hreq, ?_⟩
  rw [fetchGo, hreq]

/-- C4 witness: a source failing every attempt, run through both the retry
loop and the pagination loop. -/
theorem C4_retry_witness :
    retryRequest (failingPages 1) = ⟨.error "boom", 3, [1, 2]⟩ ∧
    fetchGo 250 id failingPages 1 1 [] 0 = .error "boom" :=
  C4_retry_exhaustion failingPages 1 (fun _ => "boom") (fun _ _ => rfl) 250 0 0 id []

/-- Helper: a full page (exactly `limit` entities, first attempt succeeding)
makes the pagination loop request the next page. -/
theorem fetchGo_full_step {α : Type} {limit : Nat} (hl : 0 < limit) (norm : α → α)
    {req : Nat → Nat → Except String (List α)} {p : Nat} (fuel : Nat)
    (acc : List α) (reqs : Nat) {b : List α} (hb : req p 0 = .ok b)
    (hlen : b.length = limit) :
    fetchGo limit norm req (fuel + 1) p acc reqs =
      fetchGo limit norm req fuel (p + 1) (acc ++ b.map norm) (reqs + 1) := by
  have hres : retryRequest (req p) = ⟨.ok b, 1, []⟩ := retryRequest_ok hb
  have hne : b.isEmpty = false := by
    cases b with
    | nil => simp at hlen; omega
    | cons x xs => rfl
  rw [fetchGo, hres]
  simp only [hne, Bool.false_eq_true, if_false]
  rw [if_neg (by simp [hlen])]

theorem C5_counterexample :
    fetchPaged 10 1 id c5pages = .ok ([7, 7, 7], 4) ∧ (4 : Nat) ≠ 3 := by
  refine ⟨by decide, by decide⟩

/-- C5 (amended): for every source whose pages have sizes [N, N, N, k] with
k < N (page size N), the fetcher returns exactly 3N + k entities and issues
exactly 4 page requests, for k = 0 as well: the loop stops at a page returning
fewer entities than the page size, or at a page returning zero entities, but
that final short or empty page is itself requested, so page sizes [N, N, N, 0]
also cost 4 page requests (and return 3N entities). -/
theorem C5_pagination {α : Type} (limit k : Nat) (b1 b2 b3 b4 : List α)
    (req : Nat → Nat → Except String (List α)) (norm : α → α) (f : Nat)
    (h1 : req 1 0 = .ok b1) (e1 : b1.length = limit)
    (h2 : req 2 0 = .ok b2) (e2 : b2.length = limit)
    (h3 : req 3 0 = .ok b3) (e3 : b3.length = limit)
    (h4 : req 4 0 = .ok b4) (e4 : b4.length = k) (hk : k < limit) :
    fetchPaged (f + 4) limit norm req = .ok ((((b1 ++ b2) ++ b3) ++ b4).map norm, 4) ∧
    ((((b1 ++ b2) ++ b3) ++ b4).map norm).length = 3 * limit + k := by
  have hl : 0 < limit := Nat.pos_of_ne_zero (by omega)
  constructor
  · rw [fetchPaged]
    rw [show f + 4 = (f + 3) + 1 from by omega]
    rw [fetchGo_full_step hl norm (f + 3) [] 0 h1 e1]
    rw [show f + 3 = (f + 2) + 1 from by omega]
    rw [fetchGo_full_step hl norm (f + 2) ([] ++ b1.map norm) 1 h2 e2]
    rw [show f + 2 = (f + 1) + 1 from by omega]
    rw [fetchGo_full_step hl norm (f + 1) (([] ++ b1.map norm) ++ b2.map norm) 2 h3 e3]
    have hres4 : retryRequest (req 4) = ⟨.ok b4, 1, []⟩ := retryRequest_ok h4
    rw [fetchGo, hres4]
    by_cases hk0 : k = 0
    · have hb4 : b4 = [] := List.length_eq_zero.mp (by omega)
      subst hb4
      simp
    · have hne : b4.isEmpty = false := by
        cases b4 with
        | nil => simp at e4; omega
        | cons x xs => rfl
      simp only [hne, Bool.false_eq_true, if_false]
      rw [if_pos (by simp [e4]; omega)]
      simp [List.map_append]
  · simp [List.map_append, e1, e2, e3, e4]
    omega

/-- C5 witness: page size 2 with page sizes [2, 2, 2, 1] yields 7 entities in
4 page requests. -/
theorem C5_pagination_witness :
    fetchPaged (0 + 4) 2 id c5wpages =
      .ok (((([1, 2] ++ [3, 4]) ++ [5, 6]) ++ [9]).map id, 4) ∧
    (((([1, 2] ++ [3, 4]) ++ [5, 6]) ++ [9]).map id).length = 3 * 2 + 1 :=
  C5_pagination 2 1 [1, 2] [3, 4] [5, 6] [9] c5wpages id 0
    rfl rfl rfl rfl rfl rfl rfl rfl (by decide)

/-- Helper: removing the rows kept by a filter from the total counts exactly
the rows rejected by it. -/
theorem length_sub_filter {α : Type} (p : α → Bool) (l : List α) :
    l.length - (l.filter p).length = (l.filter (fun a => !(p a))).length := by
  induction l with
  | nil => rfl
  | cons x xs ih =>
    have hle : (xs.filter p).length ≤ xs.length := xs.length_filter_le p
    by_cases h : p x <;> simp [List.filter_cons, h] <;> omega

/-- C3: in a secondary-language pass, a product content row is written iff the
remote id of the product is in the valid product id set, a variant content row is
written iff the remote id of the variant is in the valid variant id set, and the
filtered count (fetched localized entities minus written content rows) counts
exactly the fetched entities whose id is not in the valid set; no entity
outside the valid sets produces a row. -/
theorem C3_secondary_filter (shopId : Nat) (lang : String) (validP validV : Finset Nat)
    (lps : List Product) (lvs : List Variant) (vrows : List VariantContentRow)
    (hv : secondaryVariantRows shopId lang validV lvs = .ok vrows) :
    (∀ p ∈ lps,
      (contentRowOf shopId lang p ∈ secondaryRows shopId lang validP lps ↔ p.id ∈ validP)) ∧
    lps.length - (secondaryRows shopId lang validP lps).length =
      (lps.filter (fun p => !(decide (p.id ∈ validP)))).length ∧
    (∀ v ∈ lvs, ∀ vid, v.id = some vid →
      ((⟨shopId, vid, lang, v.title⟩ : VariantContentRow) ∈ vrows ↔ vid ∈ validV)) ∧
    lvs.length - vrows.length =
      (lvs.filter (fun v => !(decide (v.id.getD 0 ∈ validV)))).length := by
  have hrows : vrows = (lvs.filter (fun v => decide (v.id.getD 0 ∈ validV))).map
      (fun v => ⟨shopId, v.id.getD 0, lang, v.title⟩) := by
    unfold secondaryVariantRows at hv
    cases hfind : lvs.find? (fun v => v.id.isNone) with
    | some w => rw [hfind] at hv; exact absurd hv (by simp)
    | none =>
      rw [hfind] at hv
      injection hv with hv2
      exact hv2.symm
  refine ⟨?_, ?_, ?_, ?_⟩
  · intro p hp
    constructor
    · intro hmem
      rcases List.mem_map.mp hmem with ⟨q, hq, hrow⟩
      have hqv := (List.mem_filter.mp hq).2
      have : q.id = p.id := congrArg (fun r => r.lightspeed_product_id) hrow
      rw [← this]
      exact of_decide_eq_true hqv
    · intro hid
      exact List.mem_map.mpr ⟨p, List.mem_filter.mpr ⟨hp, decide_eq_true hid⟩, rfl⟩
  · rw [secondaryRows, List.length_map]
    exact length_sub_filter _ lps
  · intro v hv2 vid hvid
    constructor
    · intro hmem
      rw [hrows] at hmem
      rcases List.mem_map.mp hmem with ⟨w, hw, hrow⟩
      have hwv := (List.mem_filter.mp hw).2
      have : w.id.getD 0 = vid := congrArg (fun r => r.lightspeed_variant_id) hrow
      rw [← this]
      exact of_decide_eq_true hwv
    · intro hid
      rw [hrows]
      refine List.mem_map.mpr ⟨v, List.mem_filter.mpr ⟨hv2, ?_⟩, ?_⟩
      · rw [hvid]
        exact decide_eq_true hid
      · rw [hvid]
        rfl
  · rw [hrows, List.length_map]
    exact length_sub_filter _ lvs

/-- C3 witness: with valid product id set 10, 11 and a secondary fetch of
products 10, 11, 12, a content row is written for product 10 and the filtered
count is 1. -/
theorem C3_secondary_witness :
    (contentRowOf 5 "de" c3p10 ∈ secondaryRows 5 "de" c3valid c3lps ↔ c3p10.id ∈ c3valid) ∧
    c3lps.length - (secondaryRows 5 "de" c3valid c3lps).length = 1 := by
  constructor
  · exact (C3_secondary_filter 5 "de" c3valid ∅ c3lps [] [] rfl).1 c3p10 (by decide)
  · exact Eq.trans (C3_secondary_filter 5 "de" c3valid ∅ c3lps [] [] rfl).2.1 (by decide)

/-- Helper: membership in a `by_product` group. -/
theorem mem_attachedTo {variants : List Variant} {pid : Nat} {v : Variant} :
    v ∈ attachedTo variants pid ↔ v ∈ variants ∧ v.productRel = some pid ∧ pid ≠ 0 := by
  simp [attachedTo, List.mem_filter]

/-- Helper: unpacking a successful `attach_variants`. -/
theorem attach_variants_ok {products : List Product} {variants : List Variant}
    {shopName : Option String} {att : AttachResult}
    (h : attach_variants products variants shopName = .ok att) :
    att.products = products.map (fun p => ⟨p, (attachedTo variants p.id).map stripRel⟩) ∧
    att.orphans = ((firstDedup (truthyPids variants)).filter
        (fun q => decide (q ∉ products.map (fun p => p.id)))).map
      (fun q => (q, (attachedTo variants q).filterMap (fun v => v.id))) ∧
    att.variantsAfter = variants.map (fun v => if truthyId v.productRel then stripRel v else v) := by
  unfold attach_variants at h
  split at h
  · injection h with h2
    rw [← h2]
    exact ⟨rfl, rfl, rfl⟩
  · exact absurd h (by simp)

/-- Helper: membership in first-occurrence deduplication. -/
theorem mem_firstDedupGo {a : Nat} {l : List Nat} :
    ∀ {seen : List Nat}, a ∈ firstDedupGo l seen ↔ a ∈ l ∧ a ∉ seen := by
  induction l with
  | nil => intro seen; simp [firstDedupGo]
  | cons x xs ih =>
    intro seen
    by_cases hx : x ∈ seen
    · rw [firstDedupGo, if_pos hx, ih]
      constructor
      · rintro ⟨ha, hs⟩
        exact ⟨List.mem_cons_of_mem _ ha, hs⟩
      · rintro ⟨ha, hs⟩
        rcases List.mem_cons.mp ha with rfl | ha2
        · exact absurd hx hs
        · exact ⟨ha2, hs⟩
    · rw [firstDedupGo, if_neg hx]
      constructor
      · intro hmem
        rcases List.mem_cons.mp hmem with rfl | h2
        · exact ⟨List.mem_cons_self _ _, hx⟩
        · have := ih.mp h2
          exact ⟨List.mem_cons_of_mem _ this.1,
            fun hs => this.2 (List.mem_cons_of_mem _ hs)⟩
      · rintro ⟨ha, hs⟩
        rcases List.mem_cons.mp ha with rfl | ha2
        · exact List.mem_cons_self _ _
        · by_cases hax : a = x
          · subst hax
            exact List.mem_cons_self _ _
          · exact List.mem_cons_of_mem _
              (ih.mpr ⟨ha2, fun hsx => (List.mem_cons.mp hsx).elim hax hs⟩)

theorem mem_firstDedup {a : Nat} {l : List Nat} : a ∈ firstDedup l ↔ a ∈ l := by
  rw [firstDedup, mem_firstDedupGo]
  simp

/-- Helper: the extraction step inside `truthyPids`. -/
theorem truthyPid_eq_some {v : Variant} {a : Nat} :
    (match v.productRel with
      | some p => if p = 0 then none else some p
      | none => none) = some a ↔ v.productRel = some a ∧ a ≠ 0 := by
  cases hrel : v.productRel with
  | none => simp
  | some p =>
    dsimp only
    by_cases hp : p = 0
    · subst hp
      simp only [if_pos rfl]
      constructor
      · intro h2
        exact absurd h2 (by simp)
      · rintro ⟨h2, h3⟩
        injection h2 with h4
        exact absurd h4.symm h3
    · rw [if_neg hp]
      constructor
      · intro h2
        injection h2 with h3
        subst h3
        exact ⟨rfl, hp⟩
      · exact fun h2 => h2.1

theorem mem_truthyPids {variants : List Variant} {a : Nat} :
    a ∈ truthyPids variants ↔ (∃ v ∈ variants, v.productRel = some a) ∧ a ≠ 0 := by
  rw [truthyPids, List.mem_filterMap]
  constructor
  · rintro ⟨v, hv, hsome⟩
    have := truthyPid_eq_some.mp hsome
    exact ⟨⟨v, hv, this.1⟩, this.2⟩
  · rintro ⟨⟨v, hv, hrel⟩, ha⟩
    exact ⟨v, hv, truthyPid_eq_some.mpr ⟨hrel, ha⟩⟩

/-- C2 counterexample: a variant whose product relation id is present (0) and
not among the input products ids (there are no products) is neither attached
nor reported as an orphan: `attach_variants` returns an empty orphan report
because `if pid:` treats the id 0 as absent, contradicting the claim that
every variant whose present relation id is not among the products ids is
reported as an orphan condition. -/
theorem C2_counterexample :
    attach_variants [] [c2cexVariant] none = .ok ⟨[], [], [c2cexVariant]⟩ ∧
    (c2cexVariant.productRel).isSome = true ∧
    ¬(0 ∈ ([] : List Product).map (fun p => p.id)) := by
  refine ⟨by decide, by decide, by decide⟩

/-- C2 (amended): restricted to Python-truthy relation ids — relation id
present and nonzero — the claim holds: `attach_variants` returns every input
product (in order) with a variants list containing exactly the stripped copies
of the input variants whose truthy relation id equals the id of that product
(possibly empty); every variant whose truthy relation id is not among the
input products ids appears in no attachment group and is reported in the
orphan report, keyed by the missing product id with the variant ids of the group
(the printed count is their number), without aborting the run.  A variant
with a present-but-zero relation id is excluded from attachment but omitted
from the report (see C10). -/
theorem C2_attach (products : List Product) (variants : List Variant)
    (shopName : Option String) (att : AttachResult)
    (h : attach_variants products variants shopName = .ok att) :
    att.products.map (fun pv => pv.base) = products ∧
    (∀ pv ∈ att.products, pv.variants = (attachedTo variants pv.base.id).map stripRel) ∧
    (∀ pv ∈ att.products, ∀ w,
      (w ∈ pv.variants ↔ ∃ v ∈ variants,
        v.productRel = some pv.base.id ∧ pv.base.id ≠ 0 ∧ w = stripRel v)) ∧
    (∀ pid ids, ((pid, ids) ∈ att.orphans ↔
      pid ≠ 0 ∧ pid ∉ products.map (fun p => p.id) ∧
      (∃ v ∈ variants, v.productRel = some pid) ∧
      ids = (attachedTo variants pid).filterMap (fun v => v.id))) ∧
    (∀ v ∈ variants, isOrphanVariant (products.map (fun p => p.id)) v = true →
      ∀ pv ∈ att.products, v ∉ attachedTo variants pv.base.id) := by
  obtain ⟨hp, ho, _⟩ := attach_variants_ok h
  refine ⟨?_, ?_, ?_, ?_, ?_⟩
  · rw [hp, List.map_map]
    exact List.map_id _
  · intro pv hpv
    rw [hp] at hpv
    rcases List.mem_map.mp hpv with ⟨p, _, rfl⟩
    rfl
  · intro pv hpv w
    rw [hp] at hpv
    rcases List.mem_map.mp hpv with ⟨p, _, rfl⟩
    simp only
    rw [List.mem_map]
    constructor
    · rintro ⟨v, hv, rfl⟩
      have := mem_attachedTo.mp hv
      exact ⟨v, this.1, this.2.1, this.2.2, rfl⟩
    · rintro ⟨v, hv, hrel, hne, rfl⟩
      exact ⟨v, mem_attachedTo.mpr ⟨hv, hrel, hne⟩, rfl⟩
  · intro pid ids
    rw [ho, List.mem_map]
    constructor
    · rintro ⟨q, hq, heq⟩
      obtain ⟨hq1, hq2⟩ := List.mem_filter.mp hq
      have hq3 := mem_firstDedup.mp hq1
      have hq4 := mem_truthyPids.mp hq3
      have hpid : q = pid := congrArg Prod.fst heq
      subst hpid
      have hids : ids = (attachedTo variants q).filterMap (fun v => v.id) :=
        (congrArg Prod.snd heq).symm
      exact ⟨hq4.2, of_decide_eq_true hq2, hq4.1, hids⟩
    · rintro ⟨hne, hnotin, hex, rfl⟩
      exact ⟨pid, List.mem_filter.mpr
        ⟨mem_firstDedup.mpr (mem_truthyPids.mpr ⟨hex, hne⟩), decide_eq_true hnotin⟩, rfl⟩
  · intro v _ horph pv hpv hmem
    rw [hp] at hpv
    rcases List.mem_map.mp hpv with ⟨p, hpmem, rfl⟩
    have hrel := mem_attachedTo.mp hmem
    unfold isOrphanVariant at horph
    rw [hrel.2.1] at horph
    have : p.id ∉ products.map (fun q => q.id) := by
      have := (Bool.and_eq_true _ _).mp horph
      exact of_decide_eq_true this.2
    exact this (List.mem_map.mpr ⟨p, hpmem, rfl⟩)

/-- C2 witness: two products, two matching variants and one variant
referencing the nonexistent product 9; the orphan is reported with its variant
id and the products come back in order. -/
theorem C2_attach_witness :
    ((9 : Nat), [13]) ∈ c2att.orphans ∧
    c2att.products.map (fun pv => pv.base) = c2prods := by
  have h := C2_attach c2prods c2vars none c2att (by decide)
  exact ⟨(h.2.2.2.1 9 [13]).mpr (by decide), h.1⟩

/-- Helper: a filter over a disjunction of disjoint predicates splits into a
sum of filter lengths. -/
theorem length_filter_or_disjoint {α : Type} (p q : α → Bool) (l : List α)
    (hdisj : ∀ a ∈ l, ¬(p a = true ∧ q a = true)) :
    (l.filter (fun a => p a || q a)).length = (l.filter p).length + (l.filter q).length := by
  induction l with
  | nil => rfl
  | cons x xs ih =>
    have hd := hdisj x (List.mem_cons_self _ _)
    have ih2 := ih (fun a ha => hdisj a (List.mem_cons_of_mem _ ha))
    by_cases hp : p x = true
    · by_cases hq : q x = true
      · exact absurd ⟨hp, hq⟩ hd
      · simp [List.filter_cons, hp, hq, ih2]
        omega
    · by_cases hq : q x = true
      · simp [List.filter_cons, hp, hq, ih2]
        omega
      · simp [List.filter_cons, hp, hq, ih2]

theorem isAttachedB_nil (v : Variant) : isAttachedB [] v = false := by
  unfold isAttachedB
  cases v.productRel <;> simp

/-- Helper: attachment against an extended product id list. -/
theorem isAttachedB_cons (pid : Nat) (rest : List Nat) (v : Variant) :
    isAttachedB (pid :: rest) v =
      (decide (v.productRel = some pid ∧ pid ≠ 0) || isAttachedB rest v) := by
  unfold isAttachedB
  cases hrel : v.productRel with
  | none => simp
  | some p =>
    rw [Bool.eq_iff_iff]
    simp only [Bool.and_eq_true, Bool.or_eq_true, decide_eq_true_eq, List.mem_cons]
    constructor
    · rintro ⟨hp0, hmem | hmem⟩
      · exact Or.inl ⟨by rw [hmem], by rw [← hmem]; exact hp0⟩
      · exact Or.inr ⟨hp0, hmem⟩
    · rintro (⟨heq, hne⟩ | ⟨hp0, hmem⟩)
      · injection heq with h2
        exact ⟨by rw [h2]; exact hne, Or.inl h2⟩
      · exact ⟨hp0, Or.inr hmem⟩

/-- Helper: with distinct product ids, the total number of attached variants
across products counts exactly the variants with a truthy relation id among
the product ids. -/
theorem sum_attached_lengths (variants : List Variant) :
    ∀ products : List Product, (products.map (fun p => p.id)).Nodup →
      (products.map (fun p => (attachedTo variants p.id).length)).sum =
        (variants.filter (isAttachedB (products.map (fun p => p.id)))).length := by
  intro products
  induction products with
  | nil =>
    intro _
    simp [List.filter_congr (fun v _ => isAttachedB_nil v)]
  | cons P ps ih =>
    intro hnodup
    rw [List.map_cons, List.map_cons] at *
    have hnd := List.nodup_cons.mp hnodup
    have hpred : ∀ v ∈ variants, isAttachedB (P.id :: ps.map (fun p => p.id)) v =
        (fun v => decide (v.productRel = some P.id ∧ P.id ≠ 0) ||
          isAttachedB (ps.map (fun p => p.id)) v) v :=
      fun v _ => isAttachedB_cons P.id _ v
    rw [List.filter_congr hpred]
    have hdisj : ∀ v ∈ variants,
        ¬(decide (v.productRel = some P.id ∧ P.id ≠ 0) = true ∧
          isAttachedB (ps.map (fun p => p.id)) v = true) := by
      rintro v _ ⟨h1, h2⟩
      have hparts := of_decide_eq_true h1
      unfold isAttachedB at h2
      rw [hparts.1] at h2
      have := (Bool.and_eq_true _ _).mp h2
      exact hnd.1 (of_decide_eq_true this.2)
    rw [length_filter_or_disjoint _ _ _ hdisj, List.sum_cons, ih hnd.2]
    rfl

/-- C10: a variant whose product relation is missing, non-dict, or whose
nested id is absent or falsy (null or 0) is attached to no variants
list, reported in no orphan group (no count or id printed for it), and not
stripped of its product field; with distinct product ids, the
variants_filtered metric of sync_shop (fetched variants minus attached
variants) equals the number of non-attached variants and therefore counts that
variant. -/
theorem C10_falsy_variant (products : List Product) (variants : List Variant)
    (shopName : Option String) (att : AttachResult) (v : Variant)
    (h : attach_variants products variants shopName = .ok att)
    (hv : v ∈ variants) (hfalsy : v.productRel = none ∨ v.productRel = some 0)
    (hnodup : (products.map (fun p => p.id)).Nodup) :
    (∀ pid, v ∉ attachedTo variants pid) ∧
    (∀ pv ∈ att.products, pv.variants = (attachedTo variants pv.base.id).map stripRel) ∧
    (∀ e ∈ att.orphans, v ∉ attachedTo variants e.1) ∧
    v ∈ att.variantsAfter ∧
    variantsFiltered att.products variants =
      (variants.filter (fun w => !(isAttachedB (products.map (fun p => p.id)) w))).length ∧
    isAttachedB (products.map (fun p => p.id)) v = false := by
  obtain ⟨hp, ho, hva⟩ := attach_variants_ok h
  have hnot : ∀ pid, v ∉ attachedTo variants pid := by
    intro pid hmem
    have hm := (mem_attachedTo.mp hmem).2
    rcases hfalsy with hf | hf <;> rw [hf] at hm
    · exact absurd hm.1 (by simp)
    · injection hm.1 with h2
      exact hm.2 h2.symm
  refine ⟨hnot, ?_, ?_, ?_, ?_, ?_⟩
  · intro pv hpv
    rw [hp] at hpv
    rcases List.mem_map.mp hpv with ⟨p, _, rfl⟩
    rfl
  · intro e _
    exact hnot e.1
  · rw [hva]
    refine List.mem_map.mpr ⟨v, hv, ?_⟩
    have hfb : truthyId v.productRel = false := by
      rcases hfalsy with hf | hf <;> simp [truthyId, hf]
    rw [hfb]
    simp
  · unfold variantsFiltered
    rw [hp, List.map_map]
    have hcomp : products.map ((fun pv : ProductV => pv.variants.length) ∘
        (fun p => ⟨p, (attachedTo variants p.id).map stripRel⟩)) =
        products.map (fun p => (attachedTo variants p.id).length) := by
      refine List.map_congr_left fun p _ => ?_
      simp
    rw [hcomp, sum_attached_lengths variants products hnodup]
    exact length_sub_filter _ _
  · unfold isAttachedB
    rcases hfalsy with hf | hf <;> rw [hf] <;> simp

/-- C10 witness: one product (id 1) and three variants - relation missing,
relation id 0, and a correctly attached one; both falsy variants stay
unattached, unreported and unstripped, and variants_filtered is 2. -/
theorem C10_falsy_witness :
    c10v0 ∈ c10att.variantsAfter ∧
    variantsFiltered c10att.products c10vars = 2 ∧
    isAttachedB (c10prods.map (fun p => p.id)) c10v0 = false := by
  have h := C10_falsy_variant c10prods c10vars none c10att c10v0
    (by decide) (by decide) (Or.inr rfl) (by decide)
  exact ⟨h.2.2.2.1, h.2.2.2.2.1.trans (by decide), h.2.2.2.2.2⟩

/-- C7: the fleet run executes the pipeline of every configured shop and
returns normally; the entry of each shop in the collected results is its own
pipeline outcome (so no shop failure cancels, blocks or alters another
shop), and a failing shop is logged with its error message while
the fleet run itself completes with a value rather than an exception. -/
theorem C7_fleet_isolation (shops : List Shop) (runOne : Shop → Except String Unit)
    (s : Shop) (hs : s ∈ shops) :
    ∃ res logs, runFleet shops runOne = .ok (res, logs) ∧
      res.length = shops.length ∧
      (s, runOne s) ∈ res ∧
      (∀ t ∈ shops, (t, runOne t) ∈ res) ∧
      (∀ e, runOne s = .error e →
        ("Error syncing shop " ++ s.name ++ ": " ++ e) ∈ logs) := by
  have hne : shops.isEmpty = false := by
    cases shops with
    | nil => simp at hs
    | cons a l => rfl
  have hfleet : runFleet shops runOne = .ok (shops.map (fun t => (t, runOne t)),
      shops.filterMap (fun t =>
        match runOne t with
        | .error e => some ("Error syncing shop " ++ t.name ++ ": " ++ e)
        | .ok _ => none)) := by
    unfold runFleet
    rw [if_neg (by simp [hne])]
  refine ⟨_, _, hfleet, by simp, ?_, ?_, ?_⟩
  · exact List.mem_map.mpr ⟨s, hs, rfl⟩
  · intro t ht
    exact List.mem_map.mpr ⟨t, ht, rfl⟩
  · intro e he
    refine List.mem_filterMap.mpr ⟨s, hs, ?_⟩
    rw [he]

/-- C7 witness: three shops of which B always fails; A and C still appear with
their own successful outcomes, the failure of B is logged, and the fleet returns a
value. -/
theorem C7_fleet_witness :
    runFleet c7shops c7run = .ok (c7res, c7logs) ∧
    (c7shopA, c7run c7shopA) ∈ c7res ∧
    (c7shopC, c7run c7shopC) ∈ c7res ∧
    ("Error syncing shop " ++ c7shopB.name ++ ": " ++ "boom") ∈ c7logs := by
  obtain ⟨res, logs, hfleet, _, _, hall, hlog⟩ :=
    C7_fleet_isolation c7shops c7run c7shopB (by decide)
  have heq : runFleet c7shops c7run = .ok (c7res, c7logs) := by decide
  have hpair : (res, logs) = (c7res, c7logs) := by
    have := hfleet.symm.trans heq
    injection this with h2
  have hres : res = c7res := congrArg Prod.fst hpair
  have hlogs : logs = c7logs := congrArg Prod.snd hpair
  refine ⟨heq, ?_, ?_, ?_⟩
  · exact hres ▸ hall c7shopA (by decide)
  · exact hres ▸ hall c7shopC (by decide)
  · exact hlogs ▸ hlog "boom" rfl

/-- C6: whenever any step of a shop run raises after the audit record was
opened (missing credentials, fetch failure, projection error, upsert or delete
failure, or any other modelled exception in the try block), sync_shop updates
the audit row to status error with completed_at set, the captured exception
message and exactly the metrics gathered up to the failure point, and then
re-raises the same exception to its caller. -/
theorem C6_error_audit (env : SyncEnv) (shop : Shop) (db0 : DB) (e : String)
    (h : (syncShopBody env shop (initSt db0)).2 = .error e) :
    (sync_shop env shop db0).result = .error e ∧
    (sync_shop env shop db0).log.status = "error" ∧
    (sync_shop env shop db0).log.error_message = some e ∧
    (sync_shop env shop db0).log.completed = true ∧
    (sync_shop env shop db0).log.metrics = (syncShopBody env shop (initSt db0)).1.metrics ∧
    (sync_shop env shop db0).log.shop_id = shop.id := by
  unfold sync_shop
  rcases hbody : syncShopBody env shop (initSt db0) with ⟨st, r⟩
  rw [hbody] at h
  dsimp at h
  subst h
  simp

/-- C6 witness: a run failing at credential resolution closes the audit row
with status error and the raised message, and re-raises it. -/
theorem C6_error_audit_witness :
    (sync_shop c6env c6shop emptyDB).result =
      .error "Missing API credentials for shop TLD=NL" ∧
    (sync_shop c6env c6shop emptyDB).log.status = "error" ∧
    (sync_shop c6env c6shop emptyDB).log.error_message =
      some "Missing API credentials for shop TLD=NL" := by
  have h := C6_error_audit c6env c6shop emptyDB
    "Missing API credentials for shop TLD=NL" (by decide)
  exact ⟨h.1, h.2.1, h.2.2.1⟩

/-- C9: when the base-language fetch and attach succeed but some attached
variant lacks its remote id or its SKU, row building raises (KeyError), the
shop run terminates with audit status error, and the failure happens before
any bulk upsert or delete is attempted: the executed operation list is empty
and the data tables are untouched. -/
theorem C9_missing_key_aborts (env : SyncEnv) (shop : Shop) (db0 : DB)
    (bl : ShopLang) (ps : List Product) (n1 : Nat) (vs : List Variant) (n2 : Nat)
    (att : AttachResult)
    (hcred1 : truthyStr (env.getenv (credKey (pyUpper shop.tld))) = true)
    (hcred2 : truthyStr (env.getenv (credSecret (pyUpper shop.tld))) = true)
    (hbl : shop.shop_languages.find? (fun l => l.is_default) = some bl)
    (hfp : fetch_products env.fuel (env.productPages bl.code) = .ok (ps, n1))
    (hfv : fetch_variants env.fuel (env.variantPages bl.code) = .ok (vs, n2))
    (hatt : attach_variants ps vs (some shop.name) = .ok att)
    (hbad : ∃ pv ∈ att.products, ∃ v ∈ pv.variants, v.id.isNone ∨ v.sku.isNone) :
    (∃ m, (sync_shop env shop db0).result = .error m) ∧
    (sync_shop env shop db0).log.status = "error" ∧
    (sync_shop env shop db0).st.ops = [] ∧
    (sync_shop env shop db0).st.db = db0 := by
  have hproj : ∃ m, projectRows shop.id bl.code att.products = .error m := by
    obtain ⟨pv, hpv, v, hv, hbadv⟩ := hbad
    unfold projectRows
    cases hfind : (att.products.flatMap (fun pv => pv.variants)).find? badVariant with
    | some w => exact ⟨_, rfl⟩
    | none =>
      exfalso
      have hall := List.find?_eq_none.mp hfind v (List.mem_flatMap.mpr ⟨pv, hpv, hv⟩)
      apply hall
      unfold badVariant
      rcases hbadv with hb | hb <;> simp [hb]
  obtain ⟨m, hm⟩ := hproj
  unfold sync_shop syncShopBody
  simp only [hcred1, hcred2, Bool.and_self, Bool.not_true, Bool.false_eq_true,
    if_false, hbl, hfp, hfv, hatt, hm]
  refine ⟨⟨m, rfl⟩, ?_, ?_, ?_⟩ <;> trivial

/-- C9 witness: a shop whose single attached variant has no SKU key; the run
ends in audit status error with no data-table operation executed. -/
theorem C9_missing_key_witness :
    (sync_shop c9env c9shop emptyDB).log.status = "error" ∧
    (sync_shop c9env c9shop emptyDB).st.ops = [] := by
  have h := C9_missing_key_aborts c9env c9shop emptyDB ⟨"nl", true, true⟩
    [c9prod] 1 [c9var] 1 c9att rfl rfl (by decide) (by decide) (by decide) (by decide)
    (by decide)
  exact ⟨h.2.1, h.2.2.1⟩

/-- Helper: an upsert never touches the recorded valid id sets. -/
theorem bulk_upsert_validSets (dbErr : String → Option String) (table : String)
    (n : Nat) (app : DB → DB) (st : St) :
    ((bulk_upsert dbErr table n app st).1).validSets = st.validSets := by
  unfold bulk_upsert
  by_cases hn : n = 0
  · rw [if_pos hn]
  · rw [if_neg hn]
    cases dbErr ("upsert:" ++ table) <;> rfl

/-- Helper: products cleanup never touches the recorded valid id sets. -/
theorem cleanupProductsStep_validSets (dbErr : String → Option String) (shopId : Nat)
    (apiIds : Finset Nat) (st : St) :
    ((cleanupProductsStep dbErr shopId apiIds st).1).validSets = st.validSets := by
  unfold cleanupProductsStep
  dsimp only
  cases (cleanupTable (fun r => r.shop_id) (fun r => r.lightspeed_product_id)
      shopId apiIds st.db.products).issued with
  | none => rfl
  | some orph => cases dbErr "delete:products" <;> rfl

/-- Helper: variants cleanup never touches the recorded valid id sets. -/
theorem cleanupVariantsStep_validSets (dbErr : String → Option String) (shopId : Nat)
    (apiIds : Finset Nat) (st : St) :
    ((cleanupVariantsStep dbErr shopId apiIds st).1).validSets = st.validSets := by
  unfold cleanupVariantsStep
  dsimp only
  cases (cleanupTable (fun r => r.shop_id) (fun r => r.lightspeed_variant_id)
      shopId apiIds st.db.variants).issued with
  | none => rfl
  | some orph => cases dbErr "delete:variants" <;> rfl

/-- Helper: sequencing preserves the valid id sets when both parts do. -/
theorem andThen_validSets (step k : St → St × Except String Unit)
    (hstep : ∀ t, ((step t).1).validSets = t.validSets)
    (hk : ∀ t, ((k t).1).validSets = t.validSets) (st : St) :
    ((andThen step k st).1).validSets = st.validSets := by
  unfold andThen
  cases hb : step st with
  | mk st1 r =>
    have h1 : st1.validSets = st.validSets := by
      have := hstep st
      rw [hb] at this
      exact this
    cases r with
    | error e => exact h1
    | ok u =>
      dsimp only
      rw [hk st1]
      exact h1

/-- Helper: the secondary-language loop preserves the valid id sets. -/
theorem runLangs_validSets (env : SyncEnv) (shop : Shop) (baseLang : String)
    (vp vv : Finset Nat) :
    ∀ (langs : List String) (st : St),
      ((runLangs env shop baseLang vp vv langs st).1).validSets = st.validSets := by
  intro langs
  induction langs with
  | nil => intro st; rfl
  | cons lang rest ih =>
    intro st
    unfold runLangs
    by_cases hl : lang = baseLang
    · rw [if_pos hl]
      exact ih st
    · rw [if_neg hl]
      cases fetch_products env.fuel (env.productPages lang) with
      | error e => rfl
      | ok pr =>
        obtain ⟨lps, nn⟩ := pr
        cases fetch_variants env.fuel (env.variantPages lang) with
        | error e => rfl
        | ok vr =>
          obtain ⟨lvs, nn2⟩ := vr
          dsimp only
          cases secondaryVariantRows shop.id lang vv lvs with
          | error e => rfl
          | ok vrows =>
            exact andThen_validSets _ _
              (fun t => bulk_upsert_validSets _ _ _ _ t)
              (fun t => andThen_validSets _ _
                (fun u => bulk_upsert_validSets _ _ _ _ u) (fun u => ih u) t) st

/-- Helper: inversion through one preserving step of a sequenced chain, when
the valid id sets start out unset. -/
theorem andThen_none_inv (step k : St → St × Except String Unit)
    (hstep : ∀ t, ((step t).1).validSets = t.validSets) (st : St)
    (hnone : st.validSets = none) (s : Finset Nat × Finset Nat) (C : Prop)
    (hk : ∀ t, t.validSets = none → ((k t).1).validSets = some s → C) :
    ((andThen step k st).1).validSets = some s → C := by
  intro h
  unfold andThen at h
  cases hb : step st with
  | mk st1 r =>
    rw [hb] at h
    have h1 : st1.validSets = none := by
      have := hstep st
      rw [hb] at this
      rw [hnone] at this
      exact this
    cases r with
    | error e =>
      dsimp only at h
      rw [h1] at h
      exact absurd h (by simp)
    | ok u =>
      dsimp only at h
      exact hk st1 h1 h

/-- Helper: when the whole persist phase records valid id sets, they are
exactly the attached-product id set and the variant-row id set, regardless of
the database state it started from. -/
theorem persistPhase_validSets_inv (env : SyncEnv) (shop : Shop) (baseLang : String)
    (activeLangs : List String) (pvs : List ProductV)
    (productRows : List ProductRow) (contentRows : List ContentRow)
    (variantRows : List VariantRow) (variantContentRows : List VariantContentRow)
    (st : St) (hnone : st.validSets = none) (s : Finset Nat × Finset Nat)
    (h : ((persistPhase env shop baseLang activeLangs pvs productRows contentRows
      variantRows variantContentRows st).1).validSets = some s) :
    s = ((pvs.map (fun pv => pv.base.id)).toFinset,
         (variantRows.map (fun r => r.lightspeed_variant_id)).toFinset) := by
  unfold persistPhase at h
  dsimp only at h
  refine andThen_none_inv _ _ (fun t => bulk_upsert_validSets _ _ _ _ t) st hnone s _ ?_ h
  intro t1 h1
  refine andThen_none_inv _ _ (fun t => bulk_upsert_validSets _ _ _ _ t) t1 h1 s _ ?_
  intro t2 h2
  refine andThen_none_inv _ _ (fun t => bulk_upsert_validSets _ _ _ _ t) t2 h2 s _ ?_
  intro t3 h3
  refine andThen_none_inv _ _ (fun t => bulk_upsert_validSets _ _ _ _ t) t3 h3 s _ ?_
  intro t4 h4
  refine andThen_none_inv _ _ (fun t => cleanupProductsStep_validSets _ _ _ t) t4 h4 s _ ?_
  intro t5 h5
  refine andThen_none_inv _ _ (fun t => cleanupVariantsStep_validSets _ _ _ t) t5 h5 s _ ?_
  intro t6 _ h6
  rw [runLangs_validSets] at h6
  dsimp only at h6
  injection h6 with h7
  exact h7.symm

set_option maxHeartbeats 2000000 in
/-- C8: whenever a run records valid id sets for the secondary passes, the
valid product id set is exactly the id set of the products fetched for the
base language in the current run, and the valid variant id set is exactly the
id set of the variants that survived orphan filtering and were built into
base-language variant rows.  The starting database state is universally
quantified and absent from the conclusion: the sets are taken before — and
unaffected by — the cleanup deletes, and are never re-read from the store. -/
theorem C8_valid_id_sets (env : SyncEnv) (shop : Shop) (db0 : DB)
    (bl : ShopLang) (ps : List Product) (n1 : Nat) (vs : List Variant) (n2 : Nat)
    (att : AttachResult)
    (rows : List ProductRow × List ContentRow × List VariantRow × List VariantContentRow)
    (hbl : shop.shop_languages.find? (fun l => l.is_default) = some bl)
    (hfp : fetch_products env.fuel (env.productPages bl.code) = .ok (ps, n1))
    (hfv : fetch_variants env.fuel (env.variantPages bl.code) = .ok (vs, n2))
    (hatt : attach_variants ps vs (some shop.name) = .ok att)
    (hproj : projectRows shop.id bl.code att.products = .ok rows)
    (s : Finset Nat × Finset Nat)
    (hs : (sync_shop env shop db0).st.validSets = some s) :
    s.1 = (ps.map (fun p => p.id)).toFinset ∧
    s.2 = (rows.2.2.1.map (fun r => r.lightspeed_variant_id)).toFinset := by
  obtain ⟨productRows, contentRows, variantRows, variantContentRows⟩ := rows
  by_cases hcred : (truthyStr (env.getenv (credKey (pyUpper shop.tld))) &&
      truthyStr (env.getenv (credSecret (pyUpper shop.tld)))) = true
  · have hbody : syncShopBody env shop (initSt db0) =
        persistPhase env shop bl.code
          ((shop.shop_languages.filter (fun l => l.is_active)).map (fun l => l.code))
          att.products productRows contentRows variantRows variantContentRows
          (baseFetchedSt db0 ps vs att productRows variantRows) := by
      unfold syncShopBody initSt baseFetchedSt
      simp only [hcred, Bool.not_true, Bool.false_eq_true, if_false, hbl, hfp, hfv, hatt, hproj]
    unfold sync_shop at hs
    rw [hbody] at hs
    rcases hp2 : persistPhase env shop bl.code
        ((shop.shop_languages.filter (fun l => l.is_active)).map (fun l => l.code))
        att.products productRows contentRows variantRows variantContentRows
        (baseFetchedSt db0 ps vs att productRows variantRows) with ⟨stx, r⟩
    rw [hp2] at hs
    have hs2 : stx.validSets = some s := by
      cases r <;> exact hs
    have hpv : (persistPhase env shop bl.code
        ((shop.shop_languages.filter (fun l => l.is_active)).map (fun l => l.code))
        att.products productRows contentRows variantRows variantContentRows
        (baseFetchedSt db0 ps vs att productRows variantRows)).1.validSets = some s := by
      rw [hp2]
      exact hs2
    have hnone : (baseFetchedSt db0 ps vs att productRows variantRows).validSets = none := rfl
    have hcanon := persistPhase_validSets_inv env shop bl.code
      ((shop.shop_languages.filter (fun l => l.is_active)).map (fun l => l.code))
      att.products productRows contentRows variantRows variantContentRows
      (baseFetchedSt db0 ps vs att productRows variantRows) hnone s hpv
    have hmap : att.products.map (fun pv => pv.base.id) = ps.map (fun p => p.id) := by
      have hp := (attach_variants_ok hatt).1
      rw [hp, List.map_map]
      rfl
    rw [hcanon, hmap]
    exact ⟨rfl, rfl⟩
  · exfalso
    have hfalse : (truthyStr (env.getenv (credKey (pyUpper shop.tld))) &&
        truthyStr (env.getenv (credSecret (pyUpper shop.tld)))) = false := by
      cases h2 : (truthyStr (env.getenv (credKey (pyUpper shop.tld))) &&
          truthyStr (env.getenv (credSecret (pyUpper shop.tld)))) with
      | false => rfl
      | true => exact absurd h2 hcred
    have hbody : syncShopBody env shop (initSt db0) =
        (initSt db0, .error ("Missing API credentials for shop TLD=" ++ pyUpper shop.tld)) := by
      unfold syncShopBody
      rw [if_pos]
      rw [Bool.not_eq_true']
      exact hfalse
    unfold sync_shop at hs
    rw [hbody] at hs
    dsimp only at hs
    exact absurd hs (by simp [initSt])

/-- C8 witness: a full successful run of one product (id 1) and one variant
(id 5); the recorded valid sets are exactly the fetched product id set and the
built variant-row id set. -/
theorem C8_valid_id_sets_witness :
    ({1} : Finset Nat) = ([c8prod].map (fun p => p.id)).toFinset ∧
    ({5} : Finset Nat) = (c8variantRows.map (fun r => r.lightspeed_variant_id)).toFinset := by
  have h := C8_valid_id_sets c8env c8shop emptyDB ⟨"nl", true, true⟩ [c8prod] 1 [c8var] 1 c8att
    (c8productRows, c8contentRows, c8variantRows, c8variantContentRows)
    (by decide) (by decide) (by decide) (by decide) (by decide)
    ({1}, {5}) (by decide)
  exact h

end ShopSync
